import Mathlib

/-!
Verification of the MovieLens query-and-ranking layer.

The data model (Movie, Rating, Tag, Link) and the endpoint handlers are
embedded from the repository's source (`api/main.py`, `test_main.py`).
The query-helper operations themselves (`query_helpers.py`) are not part
of the available source tree; each such operation is modelled from the
specification, as marked in its doc comment.
-/

/-- A row of the Movie table: `movieId`, `title`, and the raw delimited
`genres` string, as described in the data model. -/
structure Movie where
  movieId : Nat
  title : String
  genres : String
deriving DecidableEq

/-- A row of the Rating table, keyed by `(userId, movieId)`.  Rating values
are modelled as rationals. -/
structure Rating where
  userId : Nat
  movieId : Nat
  rating : ℚ
  timestamp : Nat
deriving DecidableEq

/-- A row of the Tag table, keyed by `(userId, movieId, tag text)`. -/
structure TagRow where
  userId : Nat
  movieId : Nat
  tag : String
  timestamp : Nat
deriving DecidableEq

/-- A row of the Link table, keyed by `movieId` (one-to-one with Movie). -/
structure Link where
  movieId : Nat
  imdbId : String
  tmdbId : Option String
deriving DecidableEq

/-- The read-only data store: the four base tables, in primary storage
order. -/
structure DB where
  movies : List Movie
  ratings : List Rating
  tags : List TagRow
  links : List Link

/-- The character sequence of a string, lowercased character by character. -/
def lowerChars (s : String) : List Char := s.data.map Char.toLower

/-- Modelled from the spec: case-insensitive substring match (section 4.2),
used by the title and genre filters of the missing `query_helpers.py`.
`containsCI needle hay` holds when the lowercased `needle` occurs as a
contiguous run inside the lowercased `hay`. -/
def containsCI (needle haystack : String) : Bool :=
  decide (lowerChars needle <:+: lowerChars haystack)

/-- Modelled from the spec: `findMovieById` of the missing
`query_helpers.py` — exact-key lookup of a movie, returning an explicit
not-found sentinel (`none`). -/
def get_movie (db : DB) (movie_id : Nat) : Option Movie :=
  db.movies.find? (fun m => m.movieId == movie_id)

/-- Modelled from the spec: single-rating lookup of the missing
`query_helpers.py`, keyed by the `(userId, movieId)` compound key. -/
def get_rating (db : DB) (user_id movie_id : Nat) : Option Rating :=
  db.ratings.find? (fun r => r.userId == user_id && r.movieId == movie_id)

/-- Modelled from the spec: single-tag lookup of the missing
`query_helpers.py`, keyed by the `(userId, movieId, tag text)` triple with
exact tag-text match. -/
def get_tag (db : DB) (user_id movie_id : Nat) (tag_text : String) : Option TagRow :=
  db.tags.find? (fun t => t.userId == user_id && t.movieId == movie_id && t.tag == tag_text)

/-- Modelled from the spec: single-link lookup of the missing
`query_helpers.py`, keyed by `movieId`. -/
def get_link (db : DB) (movie_id : Nat) : Option Link :=
  db.links.find? (fun l => l.movieId == movie_id)

/-- Movie row predicate of the filter engine: optional title and genre
filters, each a case-insensitive substring match, combined conjunctively;
an absent filter is a no-op. -/
def movieMatches (title? genre? : Option String) (m : Movie) : Bool :=
  (match title? with
   | none => true
   | some t => containsCI t m.title) &&
  (match genre? with
   | none => true
   | some g => containsCI g m.genres)

/-- Modelled from the spec: the row-filtering phase of `get_movies` in the
missing `query_helpers.py` — all movies passing the optional title/genre
filters, in stable storage order, before pagination. -/
def scanMovies (db : DB) (title? genre? : Option String) : List Movie :=
  db.movies.filter (movieMatches title? genre?)

/-- Modelled from the spec: `get_movies` of the missing `query_helpers.py`
as called by `list_movies` — filter by title/genre, then apply `skip`,
then `limit`. -/
def get_movies (db : DB) (skip limit : Nat) (title? genre? : Option String) : List Movie :=
  ((scanMovies db title? genre?).drop skip).take limit

/-- All rating values recorded for one movie, in storage order. -/
def movieRatings (db : DB) (movie_id : Nat) : List ℚ :=
  (db.ratings.filter (fun r => r.movieId == movie_id)).map (fun r => r.rating)

/-- Modelled from the spec: `get_movie_rating_count` of the missing
`query_helpers.py` — the number of Rating rows for the movie. -/
def get_movie_rating_count (db : DB) (movie_id : Nat) : Nat :=
  (movieRatings db movie_id).length

/-- Modelled from the spec: `get_movie_average_rating` of the missing
`query_helpers.py` — the arithmetic mean of the movie's rating values,
undefined (`none`) when the movie has no ratings. -/
def get_movie_average_rating (db : DB) (movie_id : Nat) : Option ℚ :=
  let rs := movieRatings db movie_id
  if rs.length = 0 then none else some (rs.sum / (rs.length : ℚ))

-- A small concrete dataset used by the witnesses.
def exMovie1 : Movie := { movieId := 1, title := "Toy Story", genres := "Animation|Comedy" }
def exMovie2 : Movie := { movieId := 2, title := "Jumanji", genres := "Adventure|Comedy" }
def exMovie3 : Movie := { movieId := 3, title := "Heat", genres := "Action" }

def exampleDB : DB :=
  { movies := [exMovie1, exMovie2, exMovie3]
    ratings := [ { userId := 1, movieId := 1, rating := 3, timestamp := 100 }
               , { userId := 2, movieId := 1, rating := 5, timestamp := 101 }
               , { userId := 1, movieId := 2, rating := 4, timestamp := 102 } ]
    tags := [ { userId := 1, movieId := 1, tag := "fun", timestamp := 100 }
            , { userId := 2, movieId := 1, tag := "fun", timestamp := 101 }
            , { userId := 1, movieId := 2, tag := "animals", timestamp := 102 } ]
    links := [ { movieId := 1, imdbId := "tt0114709", tmdbId := some "862" } ] }

/-- C3: `averageRating(m)` (get_movie_average_rating) is undefined exactly
when `m` has zero ratings, and with at least one rating it equals the
arithmetic mean of all of `m`'s rating values; concretely, with ratings
`[3.0, 5.0]` it returns `4.0` and the rating count is `2`. -/
theorem claim_C3 :
    (∀ (db : DB) (mid : Nat),
      (get_movie_average_rating db mid = none ↔ get_movie_rating_count db mid = 0) ∧
      (get_movie_rating_count db mid ≠ 0 →
        get_movie_average_rating db mid =
          some ((movieRatings db mid).sum / (get_movie_rating_count db mid : ℚ)))) ∧
    (get_movie_average_rating exampleDB 1 = some 4 ∧ get_movie_rating_count exampleDB 1 = 2) := by
  refine ⟨fun db mid => ⟨?_, ?_⟩, ?_, ?_⟩
  · unfold get_movie_average_rating get_movie_rating_count
    by_cases h : (movieRatings db mid).length = 0 <;> simp [h]
  · intro h
    unfold get_movie_average_rating get_movie_rating_count at *
    simp only [if_neg h]
  · show get_movie_average_rating exampleDB 1 = some 4
    simp only [get_movie_average_rating, movieRatings, exampleDB, exMovie1, exMovie2, exMovie3]
    norm_num [List.filter_cons]
  · decide

/-- Witness for C3 at the concrete dataset: movie 1 has two ratings, so the
mean branch applies. -/
theorem claim_C3_witness :
    get_movie_average_rating exampleDB 1 =
      some ((movieRatings exampleDB 1).sum / (get_movie_rating_count exampleDB 1 : ℚ)) :=
  (claim_C3.1 exampleDB 1).2 (by decide)

/-- Ascending lexicographic order on strings, phrased over their character
sequences; used as the deterministic tie-break "tag text ascending". -/
def strLE (a b : String) : Prop :=
  a.data = b.data ∨ List.Lex (fun x y : Char => x < y) a.data b.data

instance : DecidableRel strLE := fun a b => by unfold strLE; infer_instance

instance : IsTotal String strLE :=
  ⟨fun a b => by
    unfold strLE
    rcases (List.Lex.isTrichotomous (r := fun x y : Char => x < y)).trichotomous
        a.data b.data with h | h | h
    · exact Or.inl (Or.inr h)
    · exact Or.inl (Or.inl h)
    · exact Or.inr (Or.inr h)⟩

instance : IsTrans String strLE :=
  ⟨fun a b c hab hbc => by
    unfold strLE at *
    rcases hab with h1 | h1 <;> rcases hbc with h2 | h2
    · exact Or.inl (h1.trans h2)
    · exact Or.inr (h1 ▸ h2)
    · exact Or.inr (h2 ▸ h1)
    · exact Or.inr (IsTrans.trans _ _ _ h1 h2)⟩

/-- Ranking relation for popular tags: descending occurrence count, ties
broken by tag text ascending. -/
def tagRel (a b : String × Nat) : Prop :=
  b.2 < a.2 ∨ (a.2 = b.2 ∧ strLE a.1 b.1)

instance : DecidableRel tagRel := fun a b => by unfold tagRel; infer_instance

instance : IsTotal (String × Nat) tagRel :=
  ⟨fun a b => by
    unfold tagRel
    rcases Nat.lt_trichotomy a.2 b.2 with h | h | h
    · exact Or.inr (Or.inl h)
    · rcases (IsTotal.total (r := strLE) a.1 b.1) with h1 | h1
      · exact Or.inl (Or.inr ⟨h, h1⟩)
      · exact Or.inr (Or.inr ⟨h.symm, h1⟩)
    · exact Or.inl (Or.inl h)⟩

instance : IsTrans (String × Nat) tagRel :=
  ⟨fun a b c hab hbc => by
    unfold tagRel at *
    rcases hab with h1 | ⟨h1, h1'⟩ <;> rcases hbc with h2 | ⟨h2, h2'⟩
    · exact Or.inl (by omega)
    · exact Or.inl (by omega)
    · exact Or.inl (by omega)
    · exact Or.inr ⟨by omega, IsTrans.trans _ _ _ h1' h2'⟩⟩

/-- The grouping phase of the popular-tags aggregation: one `(text, count)`
pair per distinct tag text occurring in the Tag table, counts taken
case-sensitively over all rows with exactly that text. -/
def popularPairs (db : DB) : List (String × Nat) :=
  ((db.tags.map (fun t => t.tag)).dedup).map
    (fun t => (t, db.tags.countP (fun row => row.tag == t)))

/-- Modelled from the spec: `get_popular_tags` of the missing
`query_helpers.py` — group all Tag rows by tag text (case-sensitive,
as stored), count occurrences, sort descending by count with ties broken
by tag text ascending, truncate to `limit`. -/
def get_popular_tags (db : DB) (limit : Nat) : List (String × Nat) :=
  (List.insertionSort tagRel (popularPairs db)).take limit

/-- The HTTP error raised by a handler, reduced to its status code. -/
structure HttpError where
  status : Nat
deriving DecidableEq

/-- Embedded from `api/main.py` (`read_movie`): look the movie up through
the helper; raise a 404 error when the helper returns no row, otherwise
return the record unchanged. -/
def read_movie (db : DB) (movie_id : Nat) : Except HttpError Movie :=
  match get_movie db movie_id with
  | none => Except.error { status := 404 }
  | some m => Except.ok m

/-- The record shape `\x7b"tag": ..., "count": ...\x7d` built by the
popular-tags handler. -/
structure TagCount where
  tag : String
  count : Nat
deriving DecidableEq

/-- Embedded from `test_main.py` (`get_popular_tags` handler): call the
helper and map each `(tag, count)` pair to a `TagCount` record, by a list
comprehension over the helper's output. -/
def get_popular_tags_endpoint (db : DB) (limit : Nat) : List TagCount :=
  (get_popular_tags db limit).map (fun p => { tag := p.1, count := p.2 })

/-- C8: list operations return an empty sequence (never an error) on zero
matches — in particular a movie scan whose title filter matches no row
returns `[]` — while every single-entity key lookup (movie by id, rating
by (userId, movieId), tag by its triple, link by movieId) returns the
not-found sentinel `none` exactly when no row has that key. -/
theorem claim_C8 (db : DB) :
    (∀ t : String, (∀ m ∈ db.movies, containsCI t m.title = false) →
      scanMovies db (some t) none = []) ∧
    (∀ id : Nat, (get_movie db id = none ↔ ∀ m ∈ db.movies, m.movieId ≠ id)) ∧
    (∀ u mid : Nat, (get_rating db u mid = none ↔
      ∀ r ∈ db.ratings, ¬(r.userId = u ∧ r.movieId = mid))) ∧
    (∀ (u mid : Nat) (txt : String), (get_tag db u mid txt = none ↔
      ∀ t ∈ db.tags, ¬(t.userId = u ∧ t.movieId = mid ∧ t.tag = txt))) ∧
    (∀ mid : Nat, (get_link db mid = none ↔ ∀ l ∈ db.links, l.movieId ≠ mid)) := by
  refine ⟨?_, ?_, ?_, ?_, ?_⟩
  · intro t ht
    simp only [scanMovies, List.filter_eq_nil_iff, movieMatches]
    intro m hm
    simp [ht m hm]
  · intro id
    simp [get_movie, List.find?_eq_none]
  · intro u mid
    simp only [get_rating, List.find?_eq_none, Bool.and_eq_true, beq_iff_eq]
  · intro u mid txt
    simp only [get_tag, List.find?_eq_none, Bool.and_eq_true, beq_iff_eq]
    constructor
    · intro h t htm hc
      exact h t htm ⟨⟨hc.1, hc.2.1⟩, hc.2.2⟩
    · intro h t htm hc
      exact h t htm ⟨hc.1.1, hc.1.2, hc.2⟩
  · intro mid
    simp [get_link, List.find?_eq_none]

/-- Witness for C8: the scan of the concrete dataset with a non-matching
title filter yields the empty list. -/
theorem claim_C8_witness : scanMovies exampleDB (some "zzz-no-match") none = [] :=
  (claim_C8 exampleDB).1 "zzz-no-match" (by decide)

/-- C9: the endpoint handler `read_movie` raises HTTP 404 exactly when the
underlying lookup `get_movie` returns no row, and otherwise returns the
looked-up record unchanged. -/
theorem claim_C9 (db : DB) (movie_id : Nat) :
    (read_movie db movie_id = Except.error { status := 404 } ↔
      get_movie db movie_id = none) ∧
    (∀ m : Movie, get_movie db movie_id = some m →
      read_movie db movie_id = Except.ok m) := by
  refine ⟨?_, ?_⟩
  · unfold read_movie
    cases h : get_movie db movie_id <;> simp
  · intro m hm
    unfold read_movie
    rw [hm]

/-- Witness for C9: looking movie 1 up in the concrete dataset succeeds and
the handler returns it unchanged. -/
theorem claim_C9_witness : read_movie exampleDB 1 = Except.ok exMovie1 :=
  (claim_C9 exampleDB 1).2 exMovie1 (by decide)

/-- C10: the popular-tags endpoint handler maps each `(tag, count)` pair
returned by the helper to the record with fields `tag` and `count`,
preserving the helper output's order and length exactly. -/
theorem claim_C10 (db : DB) (limit : Nat) :
    (get_popular_tags_endpoint db limit).length = (get_popular_tags db limit).length ∧
    ∀ i : Nat, (get_popular_tags_endpoint db limit)[i]? =
      ((get_popular_tags db limit)[i]?).map (fun p => { tag := p.1, count := p.2 : TagCount }) := by
  refine ⟨?_, ?_⟩
  · simp [get_popular_tags_endpoint]
  · intro i
    simp [get_popular_tags_endpoint]

/-- C4: for every limit, `popularTags(limit)` groups tag rows by exact
(case-sensitive) tag text — every returned pair carries the occurrence
count of precisely its text — and the output is sorted descending by
count with ties broken by tag text ascending, has length at most `limit`,
and mentions each tag text at most once. -/
theorem claim_C4 (db : DB) (limit : Nat) :
    (get_popular_tags db limit).length ≤ limit ∧
    List.Sorted tagRel (get_popular_tags db limit) ∧
    (∀ p ∈ get_popular_tags db limit,
      p.2 = db.tags.countP (fun row => row.tag == p.1)) ∧
    ((get_popular_tags db limit).map Prod.fst).Nodup := by
  unfold get_popular_tags
  refine ⟨?_, ?_, ?_, ?_⟩
  · simp [List.length_take]
  · exact List.Pairwise.sublist (List.take_sublist _ _)
      (List.sorted_insertionSort tagRel (popularPairs db))
  · intro p hp
    have hp2 : p ∈ popularPairs db :=
      (List.perm_insertionSort tagRel _).subset ((List.take_sublist _ _).subset hp)
    unfold popularPairs at hp2
    rw [List.mem_map] at hp2
    obtain ⟨t, ht, rfl⟩ := hp2
    rfl
  · have hkeys : ((popularPairs db).map Prod.fst) = (db.tags.map (fun t => t.tag)).dedup := by
      unfold popularPairs
      rw [List.map_map]
      simp [Function.comp_def]
    have h2 : ((List.insertionSort tagRel (popularPairs db)).map Prod.fst).Nodup := by
      have hperm : List.Perm ((List.insertionSort tagRel (popularPairs db)).map Prod.fst)
          ((popularPairs db).map Prod.fst) :=
        (List.perm_insertionSort tagRel _).map _
      rw [hperm.nodup_iff, hkeys]
      exact List.nodup_dedup _
    rw [List.map_take]
    exact List.Nodup.sublist (List.take_sublist _ _) h2

/-- C5: over an unchanged dataset and fixed filters, the pages
`skip = s, limit = l` and `skip = s + l, limit = l` are adjacent slices of
the one stable filtered sequence — their concatenation is exactly the
window of length `l + l` starting at position `s` (no gaps, order kept),
they share no movie when the filtered sequence has no duplicate rows, and
a skip at or beyond the end yields the empty sequence rather than an
error. -/
theorem claim_C5 (db : DB) (title? genre? : Option String) (s l : Nat)
    (hnd : (scanMovies db title? genre?).Nodup) :
    (get_movies db s l title? genre? ++ get_movies db (s + l) l title? genre? =
      ((scanMovies db title? genre?).drop s).take (l + l)) ∧
    List.Disjoint (get_movies db s l title? genre?) (get_movies db (s + l) l title? genre?) ∧
    ((scanMovies db title? genre?).length ≤ s → get_movies db s l title? genre? = []) := by
  unfold get_movies
  have hdd : (scanMovies db title? genre?).drop (s + l) =
      ((scanMovies db title? genre?).drop s).drop l := (List.drop_drop l s _).symm
  refine ⟨?_, ?_, ?_⟩
  · rw [List.take_add, hdd]
  · rw [hdd]
    have hys : (((scanMovies db title? genre?).drop s)).Nodup :=
      List.Nodup.sublist (List.drop_sublist s _) hnd
    have hd := List.disjoint_take_drop hys (Nat.le_refl l)
    intro a ha hb
    exact hd ha ((List.take_sublist _ _).subset hb)
  · intro hl
    rw [List.drop_eq_nil_of_le hl, List.take_nil]

/-- Witness for C5 at the concrete dataset: a skip beyond the end of the
unfiltered movie list yields the empty page. -/
theorem claim_C5_witness : get_movies exampleDB 10 2 none none = [] :=
  (claim_C5 exampleDB none none 10 2 (by decide)).2.2 (by decide)

/-- C6: a movie is returned by the movie-list row filter exactly when it is
in the Movie table, its lowercased title contains the lowercased title
filter as a contiguous substring whenever that filter is present, and its
lowercased raw genres string likewise contains the lowercased genre filter
whenever present — so both filters are case-insensitive substring matches
(the genre one against the raw string, not structured membership), they
combine conjunctively, and an absent filter constrains nothing. -/
theorem claim_C6 (db : DB) (title? genre? : Option String) (m : Movie) :
    m ∈ scanMovies db title? genre? ↔
      m ∈ db.movies ∧
      (∀ t, title? = some t → lowerChars t <:+: lowerChars m.title) ∧
      (∀ g, genre? = some g → lowerChars g <:+: lowerChars m.genres) := by
  unfold scanMovies
  rw [List.mem_filter]
  cases title? <;> cases genre? <;>
    simp [movieMatches, containsCI, and_assoc]

/-- Witness for C6: "toY" and "COM" match movie 1's title and genres
case-insensitively, so the scan keeps it. -/
theorem claim_C6_witness : exMovie1 ∈ scanMovies exampleDB (some "toY") (some "COM") :=
  (claim_C6 exampleDB (some "toY") (some "COM") exMovie1).mpr
    ⟨by decide,
     fun t ht => by injection ht with h; subst h; decide,
     fun g hg => by injection hg with h; subst h; decide⟩

/-- Per-movie aggregate thresholds of the advanced search: when a minimum
average rating is requested the movie must have a defined average at least
that value, and when a minimum rating count is requested the movie's
rating count must reach it. -/
def aggregatesOk (db : DB) (min_rating : Option ℚ) (min_rating_count : Option Nat)
    (m : Movie) : Bool :=
  (match min_rating with
   | none => true
   | some r =>
     match get_movie_average_rating db m.movieId with
     | none => false
     | some a => decide (r ≤ a)) &&
  (match min_rating_count with
   | none => true
   | some c => decide (c ≤ get_movie_rating_count db m.movieId))

/-- Modelled from the spec: `search_movies` of the missing
`query_helpers.py` — a two-phase pipeline: phase one filters the Movie
rows by the optional title/genre predicates, phase two joins the computed
per-movie aggregates and drops candidates failing a numeric threshold,
and the result is truncated to `limit`. -/
def search_movies (db : DB) (title? genre? : Option String) (min_rating : Option ℚ)
    (min_rating_count : Option Nat) (limit : Nat) : List Movie :=
  ((scanMovies db title? genre?).filter (aggregatesOk db min_rating min_rating_count)).take limit

/-- C7: every movie returned by the advanced search passed the title/genre
row-filtering phase, and satisfies each requested numeric threshold as a
property of the derived per-movie aggregates: a present `min_rating`
forces a defined average rating at least that value, and a present
`min_rating_count` forces at least that many ratings. -/
theorem claim_C7 (db : DB) (title? genre? : Option String) (mr : Option ℚ)
    (mrc : Option Nat) (limit : Nat) (m : Movie)
    (hm : m ∈ search_movies db title? genre? mr mrc limit) :
    m ∈ scanMovies db title? genre? ∧
    (∀ r, mr = some r →
      ∃ a, get_movie_average_rating db m.movieId = some a ∧ r ≤ a) ∧
    (∀ c, mrc = some c → c ≤ get_movie_rating_count db m.movieId) := by
  unfold search_movies at hm
  have hm2 : m ∈ (scanMovies db title? genre?).filter (aggregatesOk db mr mrc) :=
    (List.take_sublist _ _).subset hm
  rw [List.mem_filter] at hm2
  obtain ⟨hscan, hagg⟩ := hm2
  unfold aggregatesOk at hagg
  rw [Bool.and_eq_true] at hagg
  refine ⟨hscan, ?_, ?_⟩
  · intro r hr
    subst hr
    rcases havg : get_movie_average_rating db m.movieId with _ | a
    · rw [havg] at hagg
      exact absurd hagg.1 (by simp)
    · rw [havg] at hagg
      exact ⟨a, rfl, by simpa using hagg.1⟩
  · intro c hc
    subst hc
    simpa using hagg.2

/-- Witness for C7: movie 1 is in the advanced search output for title
filter "toy" with a minimum rating count of one, and therefore passes both
phases. -/
theorem claim_C7_witness :
    exMovie1 ∈ scanMovies exampleDB (some "toy") none ∧
    (∀ r, (none : Option ℚ) = some r →
      ∃ a, get_movie_average_rating exampleDB exMovie1.movieId = some a ∧ r ≤ a) ∧
    (∀ c, (some 1 : Option Nat) = some c →
      c ≤ get_movie_rating_count exampleDB exMovie1.movieId) :=
  claim_C7 exampleDB (some "toy") none none (some 1) 5 exMovie1 (by decide)

/-- Split a character sequence at every occurrence of the delimiter,
keeping empty segments, exactly as a delimiter-based string split does. -/
def splitSegs (delim : Char) : List Char → List (List Char)
  | [] => [[]]
  | c :: rest =>
    let segs := splitSegs delim rest
    if c == delim then [] :: segs
    else
      match segs with
      | [] => [[c]]
      | s :: ss => (c :: s) :: ss

/-- Modelled from the spec: parsing the pipe-delimited `genres` string of a
movie into its genre set (section 4.4) — the distinct non-empty segments,
so a movie with an empty genres string has no genres. -/
def parseGenres (s : String) : List (List Char) :=
  ((splitSegs '|' s.data).filter (fun g => !g.isEmpty)).dedup

/-- Genre overlap: the two movies share at least one genre. -/
def sharesGenre (a b : Movie) : Prop :=
  ∃ g ∈ parseGenres a.genres, g ∈ parseGenres b.genres

instance (a b : Movie) : Decidable (sharesGenre a b) := by
  unfold sharesGenre; infer_instance

/-- Genre overlap score: the number of genres shared between the two
movies' genre sets. -/
def sharedGenreCount (a b : Movie) : Nat :=
  ((parseGenres a.genres).filter (fun g => (parseGenres b.genres).contains g)).length

/-- Ranking relation of the similar-movies engine relative to a reference
movie: descending genre-overlap score, ties broken by descending rating
count, then by movieId ascending. -/
def simRel (db : DB) (ref : Movie) (x y : Movie) : Prop :=
  sharedGenreCount ref y < sharedGenreCount ref x ∨
  (sharedGenreCount ref x = sharedGenreCount ref y ∧
    (get_movie_rating_count db y.movieId < get_movie_rating_count db x.movieId ∨
     (get_movie_rating_count db x.movieId = get_movie_rating_count db y.movieId ∧
      x.movieId ≤ y.movieId)))

instance (db : DB) (ref : Movie) : DecidableRel (simRel db ref) := fun x y => by
  unfold simRel; infer_instance

/-- Modelled from the spec: `get_similar_movies` of the missing
`query_helpers.py` — resolve the reference movie (empty result when it
does not resolve), keep every other movie sharing at least one genre with
it, rank by descending overlap score with the deterministic tie-breaks,
and return the top `limit`. -/
def get_similar_movies (db : DB) (movie_id limit : Nat) : List Movie :=
  match get_movie db movie_id with
  | none => []
  | some ref =>
    (List.insertionSort (simRel db ref)
      (db.movies.filter (fun m => decide (m.movieId ≠ movie_id ∧ sharesGenre ref m)))).take limit

/-- C1: `similarMovies(id, limit)` never returns the reference movie
itself; when the reference movie does not resolve the result is empty;
and when it resolves the output size is exactly
`min(limit, number of other movies sharing at least one genre)` — in
particular a reference movie with no genres yields the empty result. -/
theorem claim_C1 (db : DB) (movie_id limit : Nat) :
    (∀ m ∈ get_similar_movies db movie_id limit, m.movieId ≠ movie_id) ∧
    (get_movie db movie_id = none → get_similar_movies db movie_id limit = []) ∧
    (∀ ref, get_movie db movie_id = some ref →
      (get_similar_movies db movie_id limit).length =
        min limit (db.movies.countP
          (fun m => decide (m.movieId ≠ movie_id ∧ sharesGenre ref m))) ∧
      (parseGenres ref.genres = [] → get_similar_movies db movie_id limit = [])) := by
  refine ⟨?_, ?_, ?_⟩
  · intro m hm
    unfold get_similar_movies at hm
    rcases h : get_movie db movie_id with _ | ref
    · rw [h] at hm
      cases hm
    · rw [h] at hm
      have hm2 : m ∈ db.movies.filter
          (fun m => decide (m.movieId ≠ movie_id ∧ sharesGenre ref m)) :=
        (List.perm_insertionSort _ _).subset ((List.take_sublist _ _).subset hm)
      rw [List.mem_filter] at hm2
      have hp := hm2.2
      simp only [decide_eq_true_eq] at hp
      exact hp.1
  · intro h
    unfold get_similar_movies
    rw [h]
  · intro ref h
    unfold get_similar_movies
    rw [h]
    dsimp only
    constructor
    · rw [List.length_take, List.length_insertionSort, ← List.countP_eq_length_filter]
    · intro hg
      have hfil : db.movies.filter
          (fun m => decide (m.movieId ≠ movie_id ∧ sharesGenre ref m)) = [] := by
        rw [List.filter_eq_nil_iff]
        intro m hm
        simp only [decide_eq_true_eq, not_and]
        intro _
        unfold sharesGenre
        rw [hg]
        simp
      rw [hfil]
      simp

/-- Witness for C1: with reference movie 1 resolved, the output size law
holds at the concrete dataset. -/
theorem claim_C1_witness :
    (get_similar_movies exampleDB 1 10).length =
      min 10 (exampleDB.movies.countP
        (fun m => decide (m.movieId ≠ 1 ∧ sharesGenre exMovie1 m))) :=
  ((claim_C1 exampleDB 1 10).2.2 exMovie1 (by decide)).1

/-- The "liked" threshold of the recommendation engine: a rating of 4.0 or
more marks the movie as liked. -/
def likedThreshold : ℚ := 4

/-- All ratings submitted by one user, in storage order. -/
def userRatings (db : DB) (user_id : Nat) : List Rating :=
  db.ratings.filter (fun r => r.userId == user_id)

/-- The user's ratings at or above the liked threshold. -/
def likedRatings (db : DB) (user_id : Nat) : List Rating :=
  (userRatings db user_id).filter (fun r => decide (likedThreshold ≤ r.rating))

/-- The genre multiset across the user's liked movies' genre lists. -/
def likedGenres (db : DB) (user_id : Nat) : List (List Char) :=
  (likedRatings db user_id).flatMap (fun r =>
    match get_movie db r.movieId with
    | some m => parseGenres m.genres
    | none => [])

/-- Recommendation score of a candidate movie: the number of its genres
among the user's liked genres, weighted by their frequency there. -/
def recScore (db : DB) (user_id : Nat) (m : Movie) : Nat :=
  ((parseGenres m.genres).map (fun g => (likedGenres db user_id).count g)).sum

/-- Ranking relation of the recommendation engine: descending score, ties
broken by descending average rating (an undefined average ranking as zero),
then by movieId ascending. -/
def recRel (db : DB) (user_id : Nat) (x y : Movie) : Prop :=
  recScore db user_id y < recScore db user_id x ∨
  (recScore db user_id x = recScore db user_id y ∧
    ((get_movie_average_rating db y.movieId).getD 0 <
        (get_movie_average_rating db x.movieId).getD 0 ∨
     ((get_movie_average_rating db x.movieId).getD 0 =
        (get_movie_average_rating db y.movieId).getD 0 ∧
      x.movieId ≤ y.movieId)))

instance (db : DB) (user_id : Nat) : DecidableRel (recRel db user_id) := fun x y => by
  unfold recRel; infer_instance

/-- Modelled from the spec: `get_user_recommendations` of the missing
`query_helpers.py` — when the user has no rating at or above the liked
threshold the result is empty; otherwise every movie the user has not yet
rated is scored by weighted genre overlap with the liked genres, ranked
with the deterministic tie-breaks, and the top `limit` are returned. -/
def get_user_recommendations (db : DB) (user_id limit : Nat) : List Movie :=
  if likedRatings db user_id = [] then []
  else
    (List.insertionSort (recRel db user_id)
      (db.movies.filter (fun m =>
        decide (m.movieId ∉ (userRatings db user_id).map (fun r => r.movieId))))).take limit

/-- C2: `recommendationsForUser(u, limit)` never includes a movie already
rated by `u`, and when `u` has no ratings at all, or none at or above the
liked threshold of 4.0, the result is the empty sequence rather than an
error. -/
theorem claim_C2 (db : DB) (user_id limit : Nat) :
    (∀ m ∈ get_user_recommendations db user_id limit,
      ∀ r ∈ db.ratings, r.userId = user_id → r.movieId ≠ m.movieId) ∧
    ((∀ r ∈ db.ratings, r.userId ≠ user_id) →
      get_user_recommendations db user_id limit = []) ∧
    ((∀ r ∈ db.ratings, r.userId = user_id → r.rating < likedThreshold) →
      get_user_recommendations db user_id limit = []) := by
  refine ⟨?_, ?_, ?_⟩
  · intro m hm r hr hu
    unfold get_user_recommendations at hm
    split at hm
    · cases hm
    · have hm2 : m ∈ db.movies.filter (fun m =>
          decide (m.movieId ∉ (userRatings db user_id).map (fun r => r.movieId))) :=
        (List.perm_insertionSort _ _).subset ((List.take_sublist _ _).subset hm)
      rw [List.mem_filter] at hm2
      have hnot := hm2.2
      simp only [decide_eq_true_eq] at hnot
      intro heq
      apply hnot
      rw [List.mem_map]
      refine ⟨r, ?_, heq⟩
      rw [userRatings, List.mem_filter]
      exact ⟨hr, by simp [hu]⟩
  · intro h
    unfold get_user_recommendations
    rw [if_pos]
    unfold likedRatings userRatings
    rw [List.filter_eq_nil_iff]
    intro r hrm
    rw [List.mem_filter] at hrm
    have : r.userId = user_id := by simpa using hrm.2
    exact absurd this (h r hrm.1)
  · intro h
    unfold get_user_recommendations
    rw [if_pos]
    unfold likedRatings
    rw [List.filter_eq_nil_iff]
    intro r hrm
    rw [userRatings, List.mem_filter] at hrm
    have hu : r.userId = user_id := by simpa using hrm.2
    have hlt := h r hrm.1 hu
    simp only [decide_eq_true_eq]
    exact not_le.mpr hlt

/-- Witness for C2: user 999 has no ratings in the concrete dataset, so
their recommendation list is empty. -/
theorem claim_C2_witness : get_user_recommendations exampleDB 999 5 = [] :=
  (claim_C2 exampleDB 999 5).2.1 (by decide)
